import Mathlib

/-!
# Verification of the J2V translation assistant (src/app.py)

Shallow embedding of the helper functions of `src/app.py` and of the
turn-direction / conversation-log logic of its UI modes.

External effects are modelled as explicit oracle parameters:
 * the generic language-detection library (`langdetect.detect`) is a
   function `String → Option String`, `none` meaning the library raised;
 * the chat-completion endpoint used by the context classifier is a
   function from the analysis prompt to `Option CtxReply`: `none` means
   the call failed or its reply was not parseable JSON, `some (.dict d)`
   a reply parsing to a JSON object, and `some .nonDict` a reply parsing
   to JSON that is not an object (a string, list, number or null), which
   the code returns unvalidated;
 * the chat-completion endpoint used by the translator is a function from
   the role-tagged messages to `Except String (Option String)`:
   `.error e` is an exception whose `str(e)` is `e`, `.ok` carries the
   (possibly null) message content;
 * the speech-to-text endpoint is a function from the optional language
   parameter to the transcript text;
 * the text-to-speech endpoint is `Except String (List Nat)` (raw bytes).

Python's `try ... except` blocks are translated by the `Option`/`Except`
oracles; an exception that escapes to the caller is an `Except.error`
result (so `translate_text`, which can leak an `AttributeError`, returns
`Except String TransOut`, while the functions that cannot raise return
plain values).
-/

namespace J2V

/-- Python `needle in haystack` substring test on strings. -/
def strContains (haystack needle : String) : Bool :=
  decide (needle.data <:+: haystack.data)

/-- Python `text.lower()`: character-wise lowercasing
(kernel-reducible model of `String.toLower`). -/
def str_lower (s : String) : String :=
  ⟨s.data.map Char.toLower⟩

/-- Python `text.strip()`: drop leading and trailing whitespace
(kernel-reducible model of `String.trim`). -/
def str_strip (s : String) : String :=
  ⟨((s.data.dropWhile Char.isWhitespace).reverse.dropWhile
      Char.isWhitespace).reverse⟩

/-- Python membership test `lang in ("ja", "vi", "en", "bn", "id")`
used by `detect_lang_simple` and `translate_text` (src/app.py:109,182). -/
def supported_codes : List String := ["ja", "vi", "en", "bn", "id"]

/-- `english_words` list from src/app.py:116. -/
def english_words : List String :=
  ["the", "and", "is", "are", "was", "were", "have", "has", "will",
   "would", "can", "could"]

/-- `vietnamese_chars` list from src/app.py:117
(ă â đ ê ô ơ ư á à ả ã ạ — all code points ≥ 0xE0, none ASCII). -/
def vietnamese_chars : List Char :=
  ['ă', 'â', 'đ', 'ê', 'ô', 'ơ', 'ư', 'á', 'à', 'ả', 'ã', 'ạ']

/-- `indonesian_words` list from src/app.py:118. -/
def indonesian_words : List String :=
  ["yang", "dan", "ini", "itu", "dengan", "dari", "untuk", "pada",
   "dalam", "tidak"]

/-- Whether a character lies in the Japanese ranges tested at
src/app.py:102: `"぀" <= ch <= "ヿ"` (U+3040–U+30FF, kana) or
`"一" <= ch <= "鿿"` (U+4E00–U+9FFF, kanji). -/
def is_ja_char (ch : Char) : Bool :=
  (Char.ofNat 0x3040 ≤ ch && ch ≤ Char.ofNat 0x30FF) ||
  (Char.ofNat 0x4E00 ≤ ch && ch ≤ Char.ofNat 0x9FFF)

/-- Whether a character lies in the Bengali range tested at
src/app.py:105: `"ক" <= ch <= "৻"` (U+0995–U+09FB). -/
def is_bn_char (ch : Char) : Bool :=
  Char.ofNat 0x0995 ≤ ch && ch ≤ Char.ofNat 0x09FB

/-- The code of `detect_lang_simple` that runs after the detector-library
attempt (src/app.py:113-133): the ASCII keyword/diacritic heuristic with
its `"vi"` default, and the final `return "ja"` for non-ASCII text. -/
def ascii_fallback (text : String) : String :=
  if text.data.all (fun c => c.toNat < 128) then
    let text_lower := str_lower text
    let has_english := english_words.any (fun w => strContains text_lower w)
    let has_vietnamese :=
      vietnamese_chars.any (fun c => text_lower.data.contains c)
    let has_indonesian :=
      indonesian_words.any (fun w => strContains text_lower w)
    if has_vietnamese then "vi"
    else if has_indonesian then "id"
    else if has_english then "en"
    else "vi"
  else "ja"

/-- `detect_lang_simple` (src/app.py:100-133).  `det` is the
`langdetect.detect` oracle; `det text = none` models the library raising.
The `try: lang = detect(text); if lang in (...): return lang; except:
pass` block falls through to `ascii_fallback` both when the library
raises and when its output is unsupported. -/
def detect_lang_simple (det : String → Option String) (text : String) :
    String :=
  if text.data.any is_ja_char then "ja"
  else if text.data.any is_bn_char then "bn"
  else
    match det text with
    | some lang =>
      if supported_codes.contains lang then lang else ascii_fallback text
    | none => ascii_fallback text

/-- Turn-direction policy, identical at src/app.py:468-473 (voice-input
mode) and src/app.py:596-602 (conversation mode):
`if detected == src: target = dst; elif detected == dst: target = src;
else: target = dst`. -/
def resolve_target (detected src dst : String) : String :=
  if detected = src then dst
  else if detected = dst then src
  else dst

/-- A conversation turn as appended at src/app.py:605-611. -/
structure Turn where
  speaker : String
  transcript : String
  translation : String
  src : String
  dst : String
deriving DecidableEq, Repr

/-- `st.session_state.chat.append({...})` (src/app.py:605-611): the speaker
label is `"A"` when the number of prior turns is even, else `"B"`. -/
def chat_append (chat : List Turn) (transcript translation src dst : String) :
    List Turn :=
  chat ++ [{ speaker := if chat.length % 2 = 0 then "A" else "B",
             transcript := transcript, translation := translation,
             src := src, dst := dst }]

/-- `speak` (src/app.py:270-291).  `tts` is the text-to-speech endpoint
oracle; the returned `Bool` records whether the endpoint was invoked.
Empty (or whitespace-only) text short-circuits before the call; a failed
call degrades to empty bytes with the default MIME type. -/
def speak (tts : Except String (List Nat)) (text _voice fmt : String) :
    (List Nat × String) × Bool :=
  if str_strip text = "" then ((([] : List Nat), "audio/mp3"), false)
  else
    match tts with
    | Except.ok audio_bytes =>
      ((audio_bytes, if fmt = "mp3" then "audio/mp3" else "audio/wav"), true)
    | Except.error _ => ((([] : List Nat), "audio/mp3"), true)

/-- `transcribe_bytes` (src/app.py:252-267).  `stt` is the speech-to-text
endpoint oracle, taking the optional `language` parameter; the temporary
file plumbing has no observable effect on the returned value.  Returns the
trimmed transcript together with the language parameter that was passed
(`none` when no `language` key was added to `kwargs`). -/
def transcribe_bytes (stt : Option String → String) (_wav_bytes : List Nat)
    (lang_hint : String) : String × Option String :=
  let language : Option String :=
    if lang_hint = "vi" ∨ lang_hint = "ja" ∨ lang_hint = "en" then
      some lang_hint
    else none
  (str_strip (stt language), language)

/-- The formality/context/tone labels of `detect_formality_and_context`.
The success path returns whatever JSON object the model produced, so each
field is optional (`none` models an absent key); the heuristic fallback
always fills all three. -/
structure CtxLabels where
  formality : Option String
  context : Option String
  tone : Option String
deriving DecidableEq, Repr

/-- What a successfully parsed classifier reply can be: `json.loads` at
src/app.py:159 may yield a JSON object (a dict, `dict`) or any other JSON
value — a string, list, number or null (`nonDict`).  The code returns
either unvalidated; a non-dict only blows up later, when a caller invokes
`.get` on it. -/
inductive CtxReply where
  | dict (labels : CtxLabels)
  | nonDict
deriving DecidableEq, Repr

/-- The `analysis_prompt` f-string of src/app.py:138-148. -/
def analysis_prompt (text lang : String) : String :=
  "\n    Analyze the following text in " ++ lang ++
  " language and determine:\n" ++
  "    1. Formality level: casual, neutral, formal, very_formal\n" ++
  "    2. Context: personal, business, academic, technical, creative, medical, legal\n" ++
  "    3. Tone: friendly, professional, serious, playful, urgent, polite\n" ++
  "    \n    Text: \"" ++ text ++ "\"\n    \n" ++
  "    Respond with only a JSON object like:\n" ++
  "    \x7b\"formality\": \"formal\", \"context\": \"business\", \"tone\": \"professional\"\x7d\n    "

/-- `formal_indicators` list from src/app.py:166. -/
def formal_indicators : List String :=
  ["please", "thank you", "sincerely", "respectfully", "でございます",
   "いたします", "xin chào", "kính chào"]

/-- `casual_indicators` list from src/app.py:167. -/
def casual_indicators : List String :=
  ["hey", "yo", "だよ", "だね", "ね", "よ", "chào bạn", "ơi"]

/-- `detect_formality_and_context` (src/app.py:136-176).  `llm` maps the
analysis prompt to the parsed JSON reply; `llm _ = none` models a failed
chat-completion call or a reply `json.loads` rejects, in which case the
`except` block runs the keyword fallback.  A reply that parses as JSON
— object or not — is returned unvalidated (src/app.py:160).  The
function itself never raises: the fallback cannot fail. -/
def detect_formality_and_context (llm : String → Option CtxReply)
    (text lang : String) : CtxReply :=
  match llm (analysis_prompt text lang) with
  | some result => result
  | none =>
    let text_lower := str_lower text
    let formality :=
      if formal_indicators.any (fun ind => strContains text_lower ind) then
        "formal"
      else if casual_indicators.any (fun ind => strContains text_lower ind) then
        "casual"
      else "neutral"
    CtxReply.dict { formality := some formality,
                    context := some "personal", tone := some "friendly" }

/-- Result of `translate_text`, with flags recording whether the
context-classifier chat call (src/app.py:151) and the translation chat call
(src/app.py:242) were issued. -/
structure TransOut where
  text : String
  classifierCalled : Bool
  chatCalled : Bool
deriving DecidableEq, Repr

/-- Source-language resolution at the top of `translate_text`
(src/app.py:180-185): `"auto"` is replaced by the heuristic detection,
with `"vi"` as fallback when the detection is unsupported. -/
def resolve_src (det : String → Option String) (text src : String) : String :=
  if src = "auto" then
    let detected := detect_lang_simple det text
    if ["vi", "ja", "en", "bn", "id"].contains detected then detected
    else "vi"
  else src

/-- The `try/except` around the translation chat-completion call
(src/app.py:241-249), mapping the call's outcome to the returned string:
trimmed content, `"Translation failed"` for null or empty content, and
the synthetic `"Translation error: " ++ e` string when the call raised
with message `e`. -/
def chat_step (res : Except String (Option String)) : TransOut :=
  match res with
  | Except.ok (some content) =>
    if content = "" then
      { text := "Translation failed", classifierCalled := true, chatCalled := true }
    else
      { text := str_strip content, classifierCalled := true, chatCalled := true }
  | Except.ok none =>
    { text := "Translation failed", classifierCalled := true, chatCalled := true }
  | Except.error e =>
    { text := "Translation error: " ++ e, classifierCalled := true, chatCalled := true }

/-- `translate_text` (src/app.py:179-249).  `det` is the language-detector
oracle, `llm` the classifier oracle, and `chat` the translation
chat-completion oracle over the role-tagged messages (`.error e` is an
exception with message `e`; `.ok` carries the possibly-null content).
When the function reaches the classifier / translation call sites, the
corresponding `Called` flag is true (the calls are issued even when they
fail).  The result is `Except.error "AttributeError"` when the classifier
reply parses as JSON that is not an object: `context_info.get` at
src/app.py:191 sits outside any `try`, so the `AttributeError` it raises
on a non-dict propagates to the caller. -/
def translate_text (det : String → Option String)
    (llm : String → Option CtxReply)
    (chat : List (String × String) → Except String (Option String))
    (text src dst : String) : Except String TransOut :=
  let src := resolve_src det text src
  if src = dst then
    Except.ok { text := text, classifierCalled := false, chatCalled := false }
  else
    match detect_formality_and_context llm text src with
    | CtxReply.nonDict => Except.error "AttributeError"
    | CtxReply.dict context_info =>
    let formality := context_info.formality.getD "neutral"
    let context := context_info.context.getD "personal"
    let tone := context_info.tone.getD "friendly"
    let base_prompt := "あなたはプロの翻訳者です。"
    let style_instruction :=
      if formality = "very_formal" then
        "最も丁寧で格式高い表現を使用し、敬語を適切に使い分けてください。"
      else if formality = "formal" then
        "丁寧で正式な表現を使用し、ビジネス文書や公式な場面に適した翻訳をしてください。"
      else if formality = "casual" then
        "自然でカジュアルな表現を使用し、日常会話に適した親しみやすい翻訳をしてください。"
      else
        "自然で適度に丁寧な表現を使用してください。"
    let context_instruction :=
      if context = "business" then
        "ビジネス文書として適切な専門用語と表現を使用してください。"
      else if context = "academic" then
        "学術的で正確な表現を使用し、専門性を保ってください。"
      else if context = "technical" then
        "技術的な内容として正確性を重視し、専門用語を適切に翻訳してください。"
      else if context = "medical" then
        "医療用語を正確に翻訳し、専門性と正確性を最優先してください。"
      else if context = "legal" then
        "法的文書として正確で曖昧さのない表現を使用してください。"
      else
        "感情やニュアンスを大切にし、人間味のある自然な表現を心がけてください。"
    let system_prompt :=
      "\n    " ++ base_prompt ++ "\n    \n    翻訳スタイル: " ++
      style_instruction ++ "\n    文脈考慮: " ++ context_instruction ++
      "\n    \n    - ソース言語: 'vi'=ベトナム語, 'ja'=日本語, 'en'=英語, 'bn'=ベンガル語, 'id'=インドネシア語" ++
      "\n    - ターゲット言語: 'ja'=日本語, 'vi'=ベトナム語, 'en'=英語, 'bn'=ベンガル語, 'id'=インドネシア語" ++
      "\n    - 検出された調子: " ++ tone ++
      "\n    - 文脈: " ++ context ++
      "\n    - 丁寧度: " ++ formality ++
      "\n    \n    元のテキストの調子と文脈を保ちながら、上記スタイルで翻訳してください。" ++
      "\n    数字や名前はそのまま保持し、説明は追加せず翻訳文のみ出力してください。\n    "
    let messages :=
      [("system", system_prompt),
       ("user", "[SRC=" ++ src ++ "] [DST=" ++ dst ++ "]\n" ++ text)]
    Except.ok (chat_step (chat messages))

/-! ## Theorems -/

/-- Every leaf of the ASCII keyword branch is a supported code. -/
lemma ascii_branch_mem (b1 b2 b3 : Bool) :
    (if b1 then "vi" else if b2 then "id" else if b3 then "en" else "vi")
      ∈ (["vi", "ja", "en", "bn", "id"] : List String) := by
  cases b1 <;> cases b2 <;> cases b3 <;> decide

/-- The post-detector fall-through code always yields a supported code. -/
lemma ascii_fallback_mem (text : String) :
    ascii_fallback text ∈ (["vi", "ja", "en", "bn", "id"] : List String) := by
  unfold ascii_fallback
  split
  · exact ascii_branch_mem _ _ _
  · decide

/-- C1: Turn-direction policy — for every detected utterance language and
session pair `(src, dst)`, the target resolves to `dst` when
`detected = src`, to `src` when `detected = dst`, and defaults to `dst`
when `detected` equals neither; in particular with `(src=vi, dst=ja)` and
`detected=ja` the target is `vi`, and with `detected=en` the target is
`dst = ja`. -/
theorem resolve_target_policy (detected src dst : String) :
    (detected = src → resolve_target detected src dst = dst) ∧
    (detected = dst → resolve_target detected src dst = src) ∧
    (detected ≠ src → detected ≠ dst → resolve_target detected src dst = dst) ∧
    resolve_target "ja" "vi" "ja" = "vi" ∧
    resolve_target "en" "vi" "ja" = "ja" := by
  refine ⟨fun h => by simp [resolve_target, h], fun h => ?_,
    fun h1 h2 => by simp [resolve_target, h1, h2], by decide, by decide⟩
  by_cases hs : detected = src
  · subst hs; subst h; simp [resolve_target]
  · simp [resolve_target, hs, h]

/-- Witness for C1 at the concrete inputs named by the claim. -/
theorem resolve_target_policy_witness :
    resolve_target "ja" "vi" "ja" = "vi" ∧
    resolve_target "en" "vi" "ja" = "ja" :=
  ⟨(resolve_target_policy "ja" "vi" "ja").2.1 rfl,
   (resolve_target_policy "en" "vi" "ja").2.2.1 (by decide) (by decide)⟩

/-- C2: for every text and every language code `L` (i.e. anything other
than the `"auto"` sentinel), `translate_text text L L` returns the input
unchanged and issues neither the context-classifier call nor the
chat-completion call, whatever the oracles do. -/
theorem translate_text_same_lang_noop (det : String → Option String)
    (llm : String → Option CtxReply)
    (chat : List (String × String) → Except String (Option String))
    (text L : String) (h : L ≠ "auto") :
    translate_text det llm chat text L L =
      Except.ok { text := text, classifierCalled := false, chatCalled := false } := by
  unfold translate_text resolve_src
  simp [h]

/-- Witness for C2 at `L = "vi"`. -/
theorem translate_text_same_lang_noop_witness :
    translate_text (fun _ => none) (fun _ => none)
        (fun _ => Except.error "down") "xin chào" "vi" "vi" =
      Except.ok { text := "xin chào", classifierCalled := false, chatCalled := false } :=
  translate_text_same_lang_noop _ _ _ "xin chào" "vi" (by decide)

/-- C3: every non-empty text all of whose characters lie in the Japanese
kana/kanji ranges is detected as `"ja"`, for every behaviour of the
detector library (the detector is not consulted on this path). -/
theorem detect_lang_simple_kana_kanji_ja (det : String → Option String)
    (text : String) (hne : text ≠ "")
    (hja : ∀ c ∈ text.data, is_ja_char c = true) :
    detect_lang_simple det text = "ja" := by
  have hd : text.data ≠ [] := by
    intro h
    apply hne
    cases text with
    | mk data => simp_all [String.ext_iff]
  have hany : text.data.any is_ja_char = true := by
    obtain ⟨c, hc⟩ := List.exists_mem_of_ne_nil _ hd
    exact List.any_eq_true.mpr ⟨c, hc, hja c hc⟩
  simp [detect_lang_simple, hany]

/-- Witness for C3 at `"日本"` with a detector that would say `"en"`. -/
theorem detect_lang_simple_kana_kanji_ja_witness :
    detect_lang_simple (fun _ => some "en") "日本" = "ja" :=
  detect_lang_simple_kana_kanji_ja (fun _ => some "en") "日本"
    (by decide) (by decide)

/-- C4 (code bug): `"the ă"` contains a Vietnamese diacritic and the
English keyword `"the"`, yet `detect_lang_simple` returns `"ja"`, not
`"vi"`, when the detector library fails: every character of
`vietnamese_chars` is non-ASCII, so the diacritic check — guarded by the
all-ASCII test at src/app.py:114 — can never fire. -/
theorem detect_lang_simple_diacritic_not_vi :
    (vietnamese_chars.any (fun c => "the ă".data.contains c) = true) ∧
    strContains "the ă" "the" = true ∧
    detect_lang_simple (fun _ => none) "the ă" = "ja" ∧
    (∀ c ∈ vietnamese_chars, 128 ≤ c.toNat) := by
  refine ⟨by decide, by decide, by decide, by decide⟩

/-- C5: whenever the classifier's chat call fails or its reply is not
parseable JSON (oracle returns `none` on the analysis prompt),
`detect_formality_and_context` returns a dictionary with all three of
formality, context and tone populated — never a partial object; it never
raises (it is a total function of its oracle and inputs). -/
theorem detect_formality_fallback_complete (llm : String → Option CtxReply)
    (text lang : String) (hfail : llm (analysis_prompt text lang) = none) :
    ∃ f, detect_formality_and_context llm text lang =
      CtxReply.dict { formality := some f, context := some "personal",
                      tone := some "friendly" } := by
  unfold detect_formality_and_context
  rw [hfail]
  exact ⟨_, rfl⟩

/-- Witness for C5 with a constantly failing classifier call. -/
theorem detect_formality_fallback_complete_witness :
    ∃ f, detect_formality_and_context (fun _ => none) "hello" "en" =
      CtxReply.dict { formality := some f, context := some "personal",
                      tone := some "friendly" } :=
  detect_formality_fallback_complete (fun _ => none) "hello" "en" rfl

/-- C6 counterexample: `translate_text` CAN raise to its caller.  When
the classifier's reply parses as JSON that is not an object (e.g. the
reply `"formal"` or `[]`), `detect_formality_and_context` returns it
unvalidated (src/app.py:160) and `context_info.get` at src/app.py:191 —
outside any `try` — raises `AttributeError`, which propagates: here at
the concrete input `("hi", "en", "ja")` the result is an uncaught
exception, not a translation string. -/
theorem translate_text_nonobject_json_raises :
    translate_text (fun _ => none) (fun _ => some CtxReply.nonDict)
        (fun _ => Except.error "boom") "hi" "en" "ja" =
      Except.error "AttributeError" := rfl

/-- C6 (amended): `translate_text` raises to its caller exactly when it
consults the classifier (resolved source differs from destination) and
the classifier's reply is valid JSON but not an object — the
`AttributeError` of src/app.py:191; in every other case it returns
normally, and when the chat-completion call fails with exception message
`e` it returns `"Translation error: " ++ e` instead of propagating the
exception. -/
theorem translate_text_error_string (det : String → Option String)
    (llm : String → Option CtxReply)
    (chat : List (String × String) → Except String (Option String))
    (text src dst e : String) :
    (resolve_src det text src ≠ dst →
      llm (analysis_prompt text (resolve_src det text src)) =
        some CtxReply.nonDict →
      translate_text det llm chat text src dst =
        Except.error "AttributeError") ∧
    ((resolve_src det text src = dst ∨
      llm (analysis_prompt text (resolve_src det text src)) ≠
        some CtxReply.nonDict) →
      ∃ out, translate_text det llm chat text src dst = Except.ok out) ∧
    (resolve_src det text src ≠ dst →
      llm (analysis_prompt text (resolve_src det text src)) ≠
        some CtxReply.nonDict →
      translate_text det llm (fun _ => Except.error e) text src dst =
        Except.ok { text := "Translation error: " ++ e,
                    classifierCalled := true, chatCalled := true }) := by
  refine ⟨fun hsd hnd => ?_, fun hok => ?_, fun hsd hnd => ?_⟩
  · unfold translate_text
    simp [detect_formality_and_context, hsd, hnd]
  · by_cases hsd : resolve_src det text src = dst
    · unfold translate_text
      simp [hsd]
    · rcases hok with hsd' | hnd
      · exact absurd hsd' hsd
      · unfold translate_text
        cases hllm : llm (analysis_prompt text (resolve_src det text src)) with
        | none => simp [detect_formality_and_context, hsd, hllm]
        | some r =>
          cases r with
          | dict d => simp [detect_formality_and_context, hsd, hllm]
          | nonDict => exact absurd hllm hnd
  · unfold translate_text
    cases hllm : llm (analysis_prompt text (resolve_src det text src)) with
    | none => simp [detect_formality_and_context, chat_step, hsd, hllm]
    | some r =>
      cases r with
      | dict d => simp [detect_formality_and_context, chat_step, hsd, hllm]
      | nonDict => exact absurd hllm hnd

/-- Witness for C6's amended claim: the raising case and the
error-string case, both at concrete inputs. -/
theorem translate_text_error_string_witness :
    translate_text (fun _ => none) (fun _ => some CtxReply.nonDict)
        (fun _ => Except.ok (some "訳")) "hey" "en" "ja" =
      Except.error "AttributeError" ∧
    translate_text (fun _ => none) (fun _ => none)
        (fun _ => Except.error "boom") "hi" "en" "ja" =
      Except.ok { text := "Translation error: boom",
                  classifierCalled := true, chatCalled := true } :=
  ⟨(translate_text_error_string (fun _ => none)
      (fun _ => some CtxReply.nonDict) (fun _ => Except.ok (some "訳"))
      "hey" "en" "ja" "boom").1 (by decide) rfl,
   (translate_text_error_string (fun _ => none) (fun _ => none)
      (fun _ => Except.error "boom") "hi" "en" "ja" "boom").2.2
      (by decide) (by decide)⟩

/-- C7: `speak ""` returns empty bytes with the default MIME type
`"audio/mp3"` and does not invoke the text-to-speech endpoint, for every
endpoint behaviour, voice and format. -/
theorem speak_empty_no_call (tts : Except String (List Nat))
    (voice fmt : String) :
    speak tts "" voice fmt = ((([] : List Nat), "audio/mp3"), false) := rfl

/-- C8 counterexample: the hint `"bn"` is one of the supported language
codes, yet `transcribe_bytes` passes no language parameter to the
speech-to-text endpoint (the code only forwards hints in
`("vi", "ja", "en")`, src/app.py:259). -/
theorem transcribe_bytes_bn_no_language_param :
    "bn" ∈ ["vi", "ja", "en", "bn", "id"] ∧
    (transcribe_bytes (fun _ => "hello") [] "bn").2 = none := by
  refine ⟨by decide, by decide⟩

/-- C8 (amended): `transcribe_bytes` passes the hint as an explicit
language parameter exactly when it is one of `vi`, `ja`, `en`; every
other hint (including `bn`, `id` and `"auto"`) passes none; and the
returned transcript is the endpoint's text trimmed of surrounding
whitespace. -/
theorem transcribe_bytes_hint_behavior (stt : Option String → String)
    (wav : List Nat) (hint : String) :
    ((hint = "vi" ∨ hint = "ja" ∨ hint = "en") →
      (transcribe_bytes stt wav hint).2 = some hint) ∧
    (¬(hint = "vi" ∨ hint = "ja" ∨ hint = "en") →
      (transcribe_bytes stt wav hint).2 = none) ∧
    (transcribe_bytes stt wav hint).1 =
      str_strip (stt (transcribe_bytes stt wav hint).2) := by
  refine ⟨fun h => by simp [transcribe_bytes, h], fun h => by
    simp [transcribe_bytes, h], ?_⟩
  by_cases h : hint = "vi" ∨ hint = "ja" ∨ hint = "en" <;>
    simp [transcribe_bytes, h]

/-- Witness for C8's amended claim at a supported and an unsupported
hint. -/
theorem transcribe_bytes_hint_behavior_witness :
    (transcribe_bytes (fun l => " hi " ++ l.getD "") [] "vi").2 = some "vi" ∧
    (transcribe_bytes (fun l => " hi " ++ l.getD "") [] "auto").2 = none :=
  ⟨(transcribe_bytes_hint_behavior (fun l => " hi " ++ l.getD "") [] "vi").1
      (Or.inl rfl),
   (transcribe_bytes_hint_behavior (fun l => " hi " ++ l.getD "") [] "auto").2.1
      (by decide)⟩

/-- C9: appending a conversation turn is append-only — the previous log
is a prefix of the new one and exactly one turn is added — and the
appended turn's speaker is `"A"` when the number of prior turns is even
and `"B"` when it is odd. -/
theorem chat_append_parity_append_only (chat : List Turn)
    (transcript translation src dst : String) :
    chat <+: chat_append chat transcript translation src dst ∧
    (chat_append chat transcript translation src dst).length =
      chat.length + 1 ∧
    (chat_append chat transcript translation src dst).getLast? =
      some { speaker := if chat.length % 2 = 0 then "A" else "B",
             transcript := transcript, translation := translation,
             src := src, dst := dst } := by
  refine ⟨List.prefix_append _ _, by simp [chat_append], ?_⟩
  simp [chat_append]

/-- C10: `detect_lang_simple` is total (a pure function of its oracle and
input) and always returns one of the five supported codes, whatever the
detector library does; when the detector fails on the empty string (as
the real library does), the empty string yields `"vi"`. -/
theorem detect_lang_simple_total_set (det : String → Option String)
    (text : String) :
    detect_lang_simple det text ∈ ["vi", "ja", "en", "bn", "id"] ∧
    (det "" = none → detect_lang_simple det "" = "vi") := by
  constructor
  · by_cases hja : text.data.any is_ja_char
    · simp [detect_lang_simple, hja]
    · by_cases hbn : text.data.any is_bn_char
      · simp [detect_lang_simple, hja, hbn]
      · cases hdet : det text with
        | some lang =>
          by_cases hsup : supported_codes.contains lang
          · have hmem : lang ∈ supported_codes := by
              simpa using hsup
            simp only [detect_lang_simple, hja, hbn, hdet, hsup,
              Bool.false_eq_true, if_false, if_true]
            simp only [supported_codes, List.mem_cons, List.not_mem_nil,
              or_false] at hmem
            simp only [List.mem_cons, List.not_mem_nil, or_false]
            tauto
          · have hnm : lang ∉ supported_codes := by simpa using hsup
            simpa [detect_lang_simple, hja, hbn, hdet, hsup, hnm]
              using ascii_fallback_mem text
        | none =>
          simpa [detect_lang_simple, hja, hbn, hdet]
            using ascii_fallback_mem text
  · intro h
    unfold detect_lang_simple
    rw [h]
    decide

/-- Witness for C10 at the empty string with a failing detector. -/
theorem detect_lang_simple_total_set_witness :
    detect_lang_simple (fun _ => none) "" ∈ ["vi", "ja", "en", "bn", "id"] ∧
    detect_lang_simple (fun _ => none) "" = "vi" :=
  ⟨(detect_lang_simple_total_set (fun _ => none) "").1,
   (detect_lang_simple_total_set (fun _ => none) "").2 rfl⟩

end J2V
